import Mathlib

/-!
Verification of the diagram-to-threat-model analysis core of the
`threat-modelling-poc` repository (`container/diagram_threat_integration.py`).

The Python module parses a draw.io-style XML document into elements, data
flows and trust boundaries, classifies them by keyword matching, derives
STRIDE risk hints and composes a natural-language prompt.  The XML library
(`xml.etree.ElementTree`) is external to the repository; we model its output
abstractly: a well-formed document is the list of `mxCell` nodes (in document
order) that `root.iter` would yield, each carrying the optional attributes the
code reads, and a malformed document is `none`.
-/

/-- Python's `str.lower` as the source applies it to diagram labels and
styles (ASCII case folding, character by character). -/
def str_lower (s : String) : String := ⟨s.data.map Char.toLower⟩

/-- Python's `str.strip`: remove leading and trailing whitespace. -/
def str_strip (s : String) : String :=
  ⟨((s.data.dropWhile Char.isWhitespace).reverse.dropWhile Char.isWhitespace).reverse⟩

/-- Python's `needle in haystack` prefix test on character lists:
`charsPrefixOf p l` is true when `p` is an initial segment of `l`. -/
def charsPrefixOf : List Char → List Char → Bool
  | [], _ => true
  | _ :: _, [] => false
  | c :: cs, d :: ds => c == d && charsPrefixOf cs ds

/-- Contiguous-substring test on character lists: true when `pat` occurs
as a contiguous block inside `l` (the empty pattern always occurs). -/
def charsSubOf (pat : List Char) : List Char → Bool
  | [] => charsPrefixOf pat []
  | d :: ds => charsPrefixOf pat (d :: ds) || charsSubOf pat ds

/-- Python's `pat in s` substring operator on strings. -/
def strContains (s pat : String) : Bool :=
  charsSubOf pat.toList s.toList

/-- `ThreatModelElement` dataclass: a threat model element extracted from the
diagram (id, display name, element type, trust level, technologies). -/
structure ThreatModelElement where
  id : String
  name : String
  element_type : String
  trust_level : String
  description : String
  technologies : List String
deriving DecidableEq, Repr

/-- `DataFlow` dataclass: a data flow between elements. -/
structure DataFlow where
  id : String
  source_id : String
  target_id : String
  label : String
  protocol : String
  data_classification : String
  encrypted : Bool
deriving DecidableEq, Repr

/-- One `mxCell` node of the parsed XML document, restricted to the
attributes the analyzer reads (`cell.get` returns `None` when absent,
modelled by `Option`). -/
structure MxCell where
  id : Option String
  value : Option String
  style : Option String
  edge : Option String
  source : Option String
  target : Option String
deriving DecidableEq, Repr

/-- The mutable state of a `DiagramThreatAnalyzer` instance: the three
collections populated by `parse_diagram_xml`. -/
structure DiagramThreatAnalyzer where
  elements : List ThreatModelElement
  data_flows : List DataFlow
  trust_boundaries : List String
deriving DecidableEq, Repr

/-- `DiagramThreatAnalyzer.__init__`: all three collections start empty. -/
def init_analyzer : DiagramThreatAnalyzer :=
  { elements := [], data_flows := [], trust_boundaries := [] }

/-- `ELEMENT_PATTERNS`: element type detection patterns, in the dict's
insertion order. -/
def ELEMENT_PATTERNS : List (String × List String) :=
  [("process", ["ellipse", "process", "roundRectangle", "service", "api"]),
   ("data_store", ["cylinder", "database", "storage", "datastore"]),
   ("external_entity", ["actor", "user", "external", "cloud", "thirdparty"]),
   ("trust_boundary", ["dashed", "boundary", "dotted", "perimeter"])]

/-- `TECH_KEYWORDS`: technology detection keywords, in the dict's insertion
order. -/
def TECH_KEYWORDS : List (String × List String) :=
  [("aws", ["s3", "ec2", "lambda", "rds", "dynamodb", "api gateway", "cloudfront"]),
   ("azure", ["blob", "cosmos", "function", "app service", "sql database"]),
   ("gcp", ["storage", "compute", "cloud function", "cloud sql"]),
   ("container", ["docker", "kubernetes", "k8s", "container", "pod"]),
   ("api", ["rest", "graphql", "api", "endpoint", "webhook"]),
   ("auth", ["oauth", "saml", "jwt", "authentication", "authorization"]),
   ("database", ["sql", "nosql", "mongodb", "postgresql", "mysql", "redis"])]

/-- Python's `any(pattern in combined for pattern in patterns)`. -/
def anyKeyword (combined : String) (patterns : List String) : Bool :=
  patterns.any (fun p => strContains combined p)

/-- `_determine_element_type`: first pattern group whose keywords match the
lower-cased `style + ' ' + value`, defaulting to `process`. -/
def determine_element_type (style value : String) : String :=
  match ELEMENT_PATTERNS.find?
      (fun g => anyKeyword (str_lower (style ++ " " ++ value)) g.2) with
  | some g => g.1
  | none => "process"

/-- `_extract_technologies`: every technology group with a keyword occurring
in the lower-cased `value + ' ' + style`, in table order. -/
def extract_technologies (value style : String) : List String :=
  let combined := str_lower (value ++ " " ++ style)
  (TECH_KEYWORDS.filter (fun g => anyKeyword combined g.2)).map (fun g => g.1)

/-- `_determine_trust_level`: `untrusted` for external entities, else
`semi-trusted` when "cloud" is a derived technology or "external" occurs in
the element type, else `trusted`. -/
def determine_trust_level (element_type : String) (technologies : List String) : String :=
  if element_type == "external_entity" then "untrusted"
  else if technologies.contains "cloud" || strContains element_type "external" then
    "semi-trusted"
  else "trusted"

/-- `_is_trust_boundary`: the trust-boundary pattern group matched against
the lower-cased `style + ' ' + value`. -/
def is_trust_boundary (style value : String) : Bool :=
  let combined := str_lower (style ++ " " ++ value)
  anyKeyword combined ["dashed", "boundary", "dotted", "perimeter"]

/-- The protocol keyword table of `_detect_protocol`, in the dict's
insertion order. -/
def protocols_table : List (String × List String) :=
  [("https", ["https", "tls", "ssl"]),
   ("http", ["http"]),
   ("grpc", ["grpc"]),
   ("sql", ["sql"]),
   ("nosql", ["nosql"]),
   ("message_queue", ["mq", "kafka", "rabbitmq", "queue"])]

/-- `_detect_protocol`: first protocol group with a keyword occurring in the
lower-cased label, defaulting to `unknown`. -/
def detect_protocol (label : String) : String :=
  match protocols_table.find? (fun g => anyKeyword (str_lower label) g.2) with
  | some g => g.1
  | none => "unknown"

/-- `_detect_encryption`: true when the lower-cased label contains one of
the encryption indicator keywords. -/
def detect_encryption (label : String) : Bool :=
  anyKeyword (str_lower label) ["https", "tls", "ssl", "encrypted", "secure"]

/-- `_process_element`: build a `ThreatModelElement` from a cell's id, its
stripped `value` and its lower-cased `style` (the Python re-reads the id
attribute from the cell; the parse loop guarantees it is this string). -/
def process_element (cell_id value style : String) : ThreatModelElement :=
  let element_type := determine_element_type style value
  let technologies := extract_technologies value style
  let trust_level := determine_trust_level element_type technologies
  { id := cell_id
    name := if value == "" then element_type ++ "_" ++ cell_id else value
    element_type := element_type
    trust_level := trust_level
    description := ""
    technologies := technologies }

/-- `_process_data_flow`: build a `DataFlow` from an edge cell (missing
`source`/`target` attributes default to the empty string). -/
def process_data_flow (cell : MxCell) (cell_id label : String) : DataFlow :=
  { id := cell_id
    source_id := cell.source.getD ""
    target_id := cell.target.getD ""
    label := label
    protocol := detect_protocol label
    data_classification := "unknown"
    encrypted := detect_encryption label }

/-- One iteration of the second pass of `parse_diagram_xml`: skip cells
without an id and the root cells "0"/"1"; dispatch edges to
`_process_data_flow`, trust-boundary matches to the boundary list and
everything else to `_process_element`. -/
def parse_step (st : DiagramThreatAnalyzer) (cell : MxCell) : DiagramThreatAnalyzer :=
  match cell.id with
  | none => st
  | some cell_id =>
    if cell_id == "" || cell_id == "0" || cell_id == "1" then st
    else
      if cell.edge == some "1" then
        { st with data_flows := st.data_flows ++
            [process_data_flow cell cell_id (str_strip (cell.value.getD ""))] }
      else if is_trust_boundary (str_lower (cell.style.getD "")) (str_strip (cell.value.getD "")) then
        { st with trust_boundaries := st.trust_boundaries ++
            [if str_strip (cell.value.getD "") == "" then "Boundary_" ++ cell_id
             else str_strip (cell.value.getD "")] }
      else
        { st with elements := st.elements ++
            [process_element cell_id (str_strip (cell.value.getD "")) (str_lower (cell.style.getD ""))] }

/-- `parse_diagram_xml`: `none` models input that is not well-formed markup
(`ET.fromstring` raises before the collections are cleared, so the state is
returned unchanged with `False`); a well-formed document clears the
collections and processes every cell in document order.  (The `cells_by_id`
first pass of the Python is dead code: the mapping is never read.) -/
def parse_diagram_xml (doc : Option (List MxCell)) (st : DiagramThreatAnalyzer) :
    Bool × DiagramThreatAnalyzer :=
  match doc with
  | none => (false, st)
  | some cells => (true, cells.foldl parse_step init_analyzer)

/-- `_get_element_name`: name of the first element with the given id, or the
synthetic `Unknown_<id>` placeholder. -/
def get_element_name (st : DiagramThreatAnalyzer) (element_id : String) : String :=
  match st.elements.find? (fun e => e.id == element_id) with
  | some e => e.name
  | none => "Unknown_" ++ element_id

/-- The per-element subsection of `generate_system_prompt` (name, type,
trust level, optional technologies and connection counts, blank line). -/
def element_section (st : DiagramThreatAnalyzer) (element : ThreatModelElement) :
    List String :=
  let inbound := st.data_flows.filter (fun f => f.target_id == element.id)
  let outbound := st.data_flows.filter (fun f => f.source_id == element.id)
  ["### " ++ element.name,
   "- Type: " ++ element.element_type,
   "- Trust Level: " ++ element.trust_level]
  ++ (if element.technologies.isEmpty then [] else
      ["- Technologies: " ++ String.intercalate ", " element.technologies])
  ++ (if inbound.isEmpty then [] else
      ["- Inbound connections: " ++ toString inbound.length])
  ++ (if outbound.isEmpty then [] else
      ["- Outbound connections: " ++ toString outbound.length])
  ++ [""]

/-- One line of the Data Flows section: source and target names joined by
the separator the source file contains (the literal bytes are the
mojibake `â†’` of an arrow), with optional label, protocol
and encryption annotations. -/
def flow_line (st : DiagramThreatAnalyzer) (flow : DataFlow) : String :=
  let source := get_element_name st flow.source_id
  let target := get_element_name st flow.target_id
  let d := "- " ++ source ++ " â†’ " ++ target
  let d := if flow.label == "" then d else d ++ ": " ++ flow.label
  let d := if flow.protocol == "unknown" then d else d ++ " (" ++ flow.protocol ++ ")"
  if flow.encrypted then d ++ " [Encrypted]" else d

/-- `generate_system_prompt`: the ordered multi-section system description,
joined with newlines. -/
def generate_system_prompt (st : DiagramThreatAnalyzer) : String :=
  let prompt_parts :=
    ["# System Architecture Overview",
     "The system consists of " ++ toString st.elements.length ++ " components ",
     "with " ++ toString st.data_flows.length ++ " data flows between them.\n"]
    ++ (if st.trust_boundaries.isEmpty then [] else
        ["## Trust Boundaries"]
        ++ st.trust_boundaries.map (fun b => "- " ++ b) ++ [""])
    ++ ["## System Components\n"]
    ++ (st.elements.map (element_section st)).flatten
    ++ ["## Data Flows\n"]
    ++ st.data_flows.map (flow_line st)
  String.intercalate "\n" prompt_parts

/-- `get_stride_analysis_hints`: the five fixed STRIDE rules, with empty
categories removed from the resulting ordered mapping. -/
def get_stride_analysis_hints (st : DiagramThreatAnalyzer) :
    List (String × List String) :=
  let external_entities := st.elements.filter (fun e => e.element_type == "external_entity")
  let spoofing : List String :=
    if external_entities.isEmpty then [] else
      ["External entities detected: "
       ++ String.intercalate ", " (external_entities.map (fun e => e.name))
       ++ ". Consider authentication mechanisms."]
  let unencrypted_flows := st.data_flows.filter (fun f => !f.encrypted)
  let tampering : List String :=
    if unencrypted_flows.isEmpty then [] else
      [toString unencrypted_flows.length
       ++ " unencrypted data flows detected. Consider implementing encryption."]
  let data_stores := st.elements.filter (fun e => e.element_type == "data_store")
  let info_disclosure : List String :=
    if data_stores.isEmpty then [] else
      [toString data_stores.length
       ++ " data stores found. Ensure proper access controls and encryption at rest."]
  let dos : List String :=
    if 5 < st.data_flows.length then
      ["Multiple data flows detected. Consider rate limiting and input validation."]
    else []
  let trust_levels := (st.elements.map (fun e => e.trust_level)).dedup
  let eop : List String :=
    if 1 < trust_levels.length then
      ["Multiple trust levels detected. Ensure proper boundary enforcement."]
    else []
  ([("Spoofing", spoofing), ("Tampering", tampering),
    ("Repudiation", ([] : List String)),
    ("Information Disclosure", info_disclosure),
    ("Denial of Service", dos),
    ("Elevation of Privilege", eop)]).filter (fun kv => !kv.2.isEmpty)

/-- `_count_element_types`: element counts keyed by type, keys in first-seen
order (a Python dict built with `get(..., 0) + 1`). -/
def bump_count (counts : List (String × Nat)) (t : String) : List (String × Nat) :=
  if counts.any (fun kv => kv.1 == t) then
    counts.map (fun kv => if kv.1 == t then (kv.1, kv.2 + 1) else kv)
  else counts ++ [(t, 1)]

/-- Fold of `bump_count` over the elements, as `_count_element_types` does. -/
def count_element_types (st : DiagramThreatAnalyzer) : List (String × Nat) :=
  st.elements.foldl (fun counts e => bump_count counts e.element_type) []

/-- The statistics block of `export_to_json`. -/
structure ExportStatistics where
  total_elements : Nat
  total_flows : Nat
  element_types : List (String × Nat)
deriving DecidableEq, Repr

/-- The payload of `export_to_json` (the Python serializes this data to a
JSON text with `json.dumps`; the textual JSON rendering is not modelled). -/
structure ExportData where
  elements : List ThreatModelElement
  data_flows : List DataFlow
  trust_boundaries : List String
  statistics : ExportStatistics
deriving DecidableEq, Repr

/-- `export_to_json`: the exported diagram data. -/
def export_to_json (st : DiagramThreatAnalyzer) : ExportData :=
  { elements := st.elements
    data_flows := st.data_flows
    trust_boundaries := st.trust_boundaries
    statistics :=
      { total_elements := st.elements.length
        total_flows := st.data_flows.length
        element_types := count_element_types st } }

/-- The success dictionary returned by `integrate_diagram_with_ai`. -/
structure IntegrationSuccess where
  system_description : String
  ai_prompt : String
  analysis_hints : List (String × List String)
  diagram_json : ExportData
  statistics_elements : Nat
  statistics_flows : Nat
  statistics_boundaries : Nat
deriving DecidableEq, Repr

/-- `integrate_diagram_with_ai`: parse with a fresh analyzer, compose the
system description, gather STRIDE hints (only for the STRIDE framework),
append compliance requirements and risk indicators to the prompt.  The
failure dictionary is modelled by `Except.error` with its error message. -/
def integrate_diagram_with_ai (diagram_xml : Option (List MxCell))
    (framework : String) (compliance_requirements : List String) :
    Except String IntegrationSuccess :=
  let parsed := parse_diagram_xml diagram_xml init_analyzer
  if parsed.1 then
    let st := parsed.2
    let system_description := generate_system_prompt st
    let stride_hints :=
      if framework == "STRIDE" then get_stride_analysis_hints st else []
    let ai_prompt_parts := [system_description]
    let ai_prompt_parts := ai_prompt_parts ++
      (if compliance_requirements.isEmpty then [] else
        ["\n## Compliance Requirements"]
        ++ compliance_requirements.map (fun req => "- " ++ req))
    let ai_prompt_parts := ai_prompt_parts ++
      (if stride_hints.isEmpty then [] else
        ["\n## Initial Risk Indicators"]
        ++ (stride_hints.map (fun kv =>
              ["\n### " ++ kv.1] ++ kv.2.map (fun hint => "- " ++ hint))).flatten)
    Except.ok
      { system_description := system_description
        ai_prompt := String.intercalate "\n" ai_prompt_parts
        analysis_hints := stride_hints
        diagram_json := export_to_json st
        statistics_elements := st.elements.length
        statistics_flows := st.data_flows.length
        statistics_boundaries := st.trust_boundaries.length }
  else Except.error "Failed to parse diagram"

/-! ## Helper lemmas -/

/-- `charsPrefixOf` agrees with the existence of a completing suffix. -/
theorem charsPrefixOf_iff (p : List Char) :
    ∀ l : List Char, charsPrefixOf p l = true ↔ ∃ t, l = p ++ t := by
  induction p with
  | nil =>
    intro l
    simp only [charsPrefixOf, List.nil_append, true_iff]
    exact ⟨l, rfl⟩
  | cons c cs ih =>
    intro l
    cases l with
    | nil => simp [charsPrefixOf]
    | cons d ds =>
      simp only [charsPrefixOf, Bool.and_eq_true, beq_iff_eq, ih ds, List.cons_append]
      constructor
      · rintro ⟨rfl, t, rfl⟩
        exact ⟨t, rfl⟩
      · rintro ⟨t, ht⟩
        obtain ⟨h1, h2⟩ := List.cons_eq_cons.mp ht
        exact ⟨h1.symm, t, h2⟩

/-- `charsSubOf` agrees with occurrence as a contiguous block. -/
theorem charsSubOf_iff (p : List Char) :
    ∀ l : List Char, charsSubOf p l = true ↔ ∃ s t, l = s ++ p ++ t := by
  intro l
  induction l with
  | nil =>
    simp only [charsSubOf, charsPrefixOf_iff]
    constructor
    · rintro ⟨t, ht⟩
      exact ⟨[], t, by simpa using ht⟩
    · rintro ⟨s, t, ht⟩
      obtain ⟨h1, h2⟩ := List.append_eq_nil.mp ht.symm
      obtain ⟨h3, h4⟩ := List.append_eq_nil.mp h1
      exact ⟨[], by simp [h3, h4]⟩
  | cons d ds ih =>
    simp only [charsSubOf, Bool.or_eq_true, charsPrefixOf_iff, ih]
    constructor
    · rintro (⟨t, ht⟩ | ⟨s, t, ht⟩)
      · exact ⟨[], t, by simpa using ht⟩
      · exact ⟨d :: s, t, by simp [ht]⟩
    · rintro ⟨s, t, ht⟩
      cases s with
      | nil => exact Or.inl ⟨t, by simpa using ht⟩
      | cons x xs =>
        obtain ⟨h1, h2⟩ := List.cons_eq_cons.mp ht
        exact Or.inr ⟨xs, t, h2⟩

/-- Occurrence of a contiguous block is transitive. -/
theorem charsSubOf_trans {q p l : List Char} (hqp : charsSubOf q p = true)
    (hpl : charsSubOf p l = true) : charsSubOf q l = true := by
  rw [charsSubOf_iff] at hqp hpl ⊢
  obtain ⟨u, v, rfl⟩ := hqp
  obtain ⟨s, t, rfl⟩ := hpl
  exact ⟨s ++ u, v ++ t, by simp⟩

/-- Substring containment is transitive. -/
theorem strContains_trans {s p q : String} (hpq : strContains p q = true)
    (hsp : strContains s p = true) : strContains s q = true := by
  unfold strContains at hpq hsp ⊢
  exact charsSubOf_trans hpq hsp

/-- A lower-cased label containing "nosql" also contains "sql". -/
theorem nosql_implies_sql {s : String} (h : strContains s "nosql" = true) :
    strContains s "sql" = true :=
  strContains_trans (by decide) h

/-- `_determine_element_type` only ever answers one of the four pattern
group names. -/
theorem determine_element_type_mem (style value : String) :
    determine_element_type style value ∈
      ["process", "data_store", "external_entity", "trust_boundary"] := by
  unfold determine_element_type
  split
  next g hf =>
    have hg := List.mem_of_find?_eq_some hf
    simp only [ELEMENT_PATTERNS, List.mem_cons, List.not_mem_nil, or_false] at hg
    rcases hg with h | h | h | h <;> subst h <;> simp
  next => simp

/-- "cloud" is not a key of `TECH_KEYWORDS`, so it is never a derived
technology. -/
theorem cloud_not_mem_technologies (value style : String) :
    "cloud" ∉ extract_technologies value style := by
  unfold extract_technologies
  intro h
  rw [List.mem_map] at h
  obtain ⟨g, hg, hfst⟩ := h
  have hmem := (List.mem_filter.mp hg).1
  simp only [TECH_KEYWORDS, List.mem_cons, List.not_mem_nil, or_false] at hmem
  rcases hmem with h | h | h | h | h | h | h <;> subst h <;> simp at hfst

/-- Boolean form of `cloud_not_mem_technologies`. -/
theorem technologies_contains_cloud_false (value style : String) :
    (extract_technologies value style).contains "cloud" = false := by
  rw [← Bool.not_eq_true]
  intro hc
  exact cloud_not_mem_technologies value style (List.elem_iff.mp hc)

/-- On classifier outputs the trust level collapses to a two-way split:
`untrusted` for external entities and `trusted` otherwise. -/
theorem determine_trust_level_parsed (value style : String) :
    determine_trust_level (determine_element_type style value)
        (extract_technologies value style) =
      if determine_element_type style value = "external_entity" then "untrusted"
      else "trusted" := by
  have hmem := determine_element_type_mem style value
  have hcloud := technologies_contains_cloud_false value style
  simp only [List.mem_cons, List.not_mem_nil, or_false] at hmem
  unfold determine_trust_level
  rcases hmem with h | h | h | h <;> rw [h, hcloud] <;> decide

/-- Every element in the state after one `parse_step` was already there or
is the image of `_process_element`. -/
theorem parse_step_elements (st : DiagramThreatAnalyzer) (c : MxCell) :
    ∀ e ∈ (parse_step st c).elements,
      e ∈ st.elements ∨ ∃ cid value style, e = process_element cid value style := by
  intro e he
  unfold parse_step at he
  split at he
  · exact Or.inl he
  next cid hid =>
    split at he
    · exact Or.inl he
    · split at he
      · exact Or.inl he
      · split at he
        · exact Or.inl he
        · simp only [List.mem_append, List.mem_singleton] at he
          rcases he with h | h
          · exact Or.inl h
          · exact Or.inr ⟨cid, _, _, h⟩

/-- Every element in the state after the parse fold was already there or is
the image of `_process_element`. -/
theorem parse_elements_shape (cells : List MxCell) :
    ∀ st : DiagramThreatAnalyzer, ∀ e ∈ (cells.foldl parse_step st).elements,
      e ∈ st.elements ∨ ∃ cid value style, e = process_element cid value style := by
  induction cells with
  | nil => intro st e he; exact Or.inl he
  | cons c cs ih =>
    intro st e he
    rw [List.foldl_cons] at he
    rcases ih (parse_step st c) e he with hmem | hex
    · exact parse_step_elements st c e hmem
    · exact Or.inr hex

/-- Every data flow in the state after one `parse_step` was already there
or is `_process_data_flow` of the processed edge cell. -/
theorem parse_step_flows (st : DiagramThreatAnalyzer) (c : MxCell) :
    ∀ f ∈ (parse_step st c).data_flows,
      f ∈ st.data_flows ∨ c.edge = some "1" ∧ ∃ cid, c.id = some cid ∧
        f = process_data_flow c cid (str_strip (c.value.getD "")) := by
  intro f hf
  unfold parse_step at hf
  split at hf
  · exact Or.inl hf
  next cid hid =>
    split at hf
    · exact Or.inl hf
    · split at hf
      next hedge =>
        simp only [List.mem_append, List.mem_singleton] at hf
        rcases hf with h | h
        · exact Or.inl h
        · exact Or.inr ⟨by simpa using hedge, cid, hid, h⟩
      · split at hf
        · exact Or.inl hf
        · exact Or.inl hf

/-- Every data flow in the state after the parse fold was already there or
is `_process_data_flow` of some edge cell of the document. -/
theorem parse_flows_shape (cells : List MxCell) :
    ∀ st : DiagramThreatAnalyzer, ∀ f ∈ (cells.foldl parse_step st).data_flows,
      f ∈ st.data_flows ∨ ∃ c ∈ cells, c.edge = some "1" ∧ ∃ cid, c.id = some cid ∧
        f = process_data_flow c cid (str_strip (c.value.getD "")) := by
  induction cells with
  | nil => intro st f hf; exact Or.inl hf
  | cons c cs ih =>
    intro st f hf
    rw [List.foldl_cons] at hf
    rcases ih (parse_step st c) f hf with hmem | ⟨c', hc', hrest⟩
    · rcases parse_step_flows st c f hmem with h | ⟨hedge, cid, hcid, heq⟩
      · exact Or.inl h
      · exact Or.inr ⟨c, List.mem_cons_self c cs, hedge, cid, hcid, heq⟩
    · exact Or.inr ⟨c', List.mem_cons_of_mem c hc', hrest⟩

/-! ## Claims -/

/-- C1.  Totality of the pipeline: for every syntactically valid diagram
document (any cell list, including the empty one), `integrate_diagram_with_ai`
returns a success result, which by construction carries a composed
`ai_prompt` string; no failure or exception path is reachable. -/
theorem pipeline_totality (cells : List MxCell) (framework : String)
    (compliance_requirements : List String) :
    ∃ res : IntegrationSuccess,
      integrate_diagram_with_ai (some cells) framework compliance_requirements =
        Except.ok res :=
  ⟨_, rfl⟩

/-- C2.  Determinism: two runs of the full analysis on the same diagram
document and framework produce byte-identical composed prompt strings.  The
embedding is a pure function of its arguments because the source consults no
randomness, clock or ambient state: each call builds a fresh analyzer, and
every string in the prompt is derived from the input alone. -/
theorem pipeline_determinism (doc : Option (List MxCell)) (framework : String)
    (compliance_requirements : List String) (r1 r2 : IntegrationSuccess)
    (h1 : integrate_diagram_with_ai doc framework compliance_requirements = Except.ok r1)
    (h2 : integrate_diagram_with_ai doc framework compliance_requirements = Except.ok r2) :
    r1.ai_prompt = r2.ai_prompt := by
  rw [h1] at h2
  cases h2
  rfl

/-- The result of the full analysis of the empty diagram document. -/
def empty_doc_description : String :=
  "# System Architecture Overview\nThe system consists of 0 components \nwith 0 data flows between them.\n\n## System Components\n\n## Data Flows\n"

/-- The success record of the full analysis of the empty diagram document. -/
def empty_doc_result : IntegrationSuccess :=
  { system_description := empty_doc_description
    ai_prompt := empty_doc_description
    analysis_hints := []
    diagram_json :=
      { elements := []
        data_flows := []
        trust_boundaries := []
        statistics := { total_elements := 0, total_flows := 0, element_types := [] } }
    statistics_elements := 0
    statistics_flows := 0
    statistics_boundaries := 0 }

/-- Witness for C2: both runs on the empty document yield the concrete
success record, and the theorem applies to give equal prompts. -/
theorem pipeline_determinism_witness :
    integrate_diagram_with_ai (some []) "STRIDE" [] = Except.ok empty_doc_result ∧
    empty_doc_result.ai_prompt = empty_doc_result.ai_prompt :=
  ⟨by rfl,
   pipeline_determinism (some []) "STRIDE" [] empty_doc_result empty_doc_result
     (by rfl) (by rfl)⟩

/-- The basic two-node diagram: "Web App" (ellipse), "Database" (cylinder)
and one unlabeled edge from the former to the latter. -/
def two_node_cells : List MxCell :=
  [⟨some "2", some "Web App", some "ellipse", none, none, none⟩,
   ⟨some "3", some "Database", some "cylinder", none, none, none⟩,
   ⟨some "4", some "", none, some "1", some "2", some "3"⟩]

/-- C3.  Two-node scenario: the analysis of `two_node_cells` yields exactly
two elements with categories `process` and `data_store`, one flow with
protocol `unknown` and `encrypted = false`, no trust boundaries, and STRIDE
hints consisting of a Tampering observation citing 1 unencrypted flow and an
Information Disclosure observation citing 1 data store. -/
theorem two_node_scenario :
    (parse_diagram_xml (some two_node_cells) init_analyzer).2.elements.map
        ThreatModelElement.element_type = ["process", "data_store"] ∧
    (parse_diagram_xml (some two_node_cells) init_analyzer).2.data_flows.map
        (fun f => (f.protocol, f.encrypted)) = [("unknown", false)] ∧
    (parse_diagram_xml (some two_node_cells) init_analyzer).2.trust_boundaries = [] ∧
    get_stride_analysis_hints (parse_diagram_xml (some two_node_cells) init_analyzer).2 =
      [("Tampering",
        ["1 unencrypted data flows detected. Consider implementing encryption."]),
       ("Information Disclosure",
        ["1 data stores found. Ensure proper access controls and encryption at rest."])] := by
  decide

/-- C4.  Trust-level derivation: every parsed element's trust level is
`untrusted` when its category is `external_entity`, else `semi-trusted` when
"cloud" is among its technologies, else `trusted` (so `semi-trusted` requires
"cloud" among the technologies, and external entities are always
`untrusted`). -/
theorem trust_level_derivation (cells : List MxCell) (e : ThreatModelElement)
    (he : e ∈ (parse_diagram_xml (some cells) init_analyzer).2.elements) :
    e.trust_level =
      if e.element_type = "external_entity" then "untrusted"
      else if e.technologies.contains "cloud" then "semi-trusted"
      else "trusted" := by
  rcases parse_elements_shape cells init_analyzer e he with h | ⟨cid, v, s, rfl⟩
  · simp [init_analyzer] at h
  · have ht := determine_trust_level_parsed v s
    have hc := technologies_contains_cloud_false v s
    show determine_trust_level (determine_element_type s v) (extract_technologies v s) =
      if determine_element_type s v = "external_entity" then "untrusted"
      else if (extract_technologies v s).contains "cloud" then "semi-trusted"
      else "trusted"
    rw [ht, hc]
    simp

/-- A one-node document whose element is an external entity. -/
def c4_witness_cells : List MxCell :=
  [⟨some "9", some "Clients", some "actor", none, none, none⟩]

/-- Witness for C4 at the external-entity element of `c4_witness_cells`. -/
theorem trust_level_derivation_witness :
    (process_element "9" "Clients" "actor" ∈
      (parse_diagram_xml (some c4_witness_cells) init_analyzer).2.elements) ∧
    (process_element "9" "Clients" "actor").trust_level =
      (if (process_element "9" "Clients" "actor").element_type = "external_entity"
       then "untrusted"
       else if (process_element "9" "Clients" "actor").technologies.contains "cloud"
       then "semi-trusted"
       else "trusted") :=
  ⟨by decide, trust_level_derivation c4_witness_cells _ (by decide)⟩

/-- C5.  Malformed-input failure is clean: on input that is not well-formed
markup the parser fails before touching any state (`ET.fromstring` raises
first), so `parse_diagram_xml` returns `false` with the analyzer state
unchanged; the analyzer a caller constructs (every caller in the repository
parses on a fresh instance) has all three collections empty, so no partial
model is exposed. -/
theorem malformed_parse_clean :
    (∀ st : DiagramThreatAnalyzer, parse_diagram_xml none st = (false, st)) ∧
    (parse_diagram_xml none init_analyzer).2.elements = [] ∧
    (parse_diagram_xml none init_analyzer).2.data_flows = [] ∧
    (parse_diagram_xml none init_analyzer).2.trust_boundaries = [] :=
  ⟨fun _ => rfl, rfl, rfl, rfl⟩

/-- C6.  Hint suppression: on a classified model with no data stores, no
external entities, at most 5 flows, all flows encrypted and at most one
distinct trust level, the STRIDE hint generator returns the empty mapping
(no categories at all).  `integrate_diagram_with_ai` invokes exactly this
function when the framework is "STRIDE". -/
theorem hint_suppression (st : DiagramThreatAnalyzer)
    (hds : st.elements.filter (fun e => e.element_type == "data_store") = [])
    (hext : st.elements.filter (fun e => e.element_type == "external_entity") = [])
    (hflows : st.data_flows.length ≤ 5)
    (henc : ∀ f ∈ st.data_flows, f.encrypted = true)
    (htl : ((st.elements.map (fun e => e.trust_level)).dedup).length ≤ 1) :
    get_stride_analysis_hints st = [] := by
  have hunenc : st.data_flows.filter (fun f => !f.encrypted) = [] := by
    rw [List.filter_eq_nil_iff]
    intro f hf
    simp [henc f hf]
  unfold get_stride_analysis_hints
  rw [hds, hext, hunenc]
  simp [Nat.not_lt.mpr hflows, Nat.not_lt.mpr htl]

/-- A diagram with a single trusted process and one encrypted self-loop
flow, satisfying all the hypotheses of the hint-suppression claim. -/
def quiet_cells : List MxCell :=
  [⟨some "5", some "Svc", some "ellipse", none, none, none⟩,
   ⟨some "6", some "HTTPS", none, some "1", some "5", some "5"⟩]

/-- Witness for C6 at the parse result of `quiet_cells`. -/
theorem hint_suppression_witness :
    ((parse_diagram_xml (some quiet_cells) init_analyzer).2.elements.filter
        (fun e => e.element_type == "data_store") = []) ∧
    ((parse_diagram_xml (some quiet_cells) init_analyzer).2.elements.filter
        (fun e => e.element_type == "external_entity") = []) ∧
    ((parse_diagram_xml (some quiet_cells) init_analyzer).2.data_flows.length ≤ 5) ∧
    (∀ f ∈ (parse_diagram_xml (some quiet_cells) init_analyzer).2.data_flows,
        f.encrypted = true) ∧
    ((((parse_diagram_xml (some quiet_cells) init_analyzer).2.elements.map
        (fun e => e.trust_level)).dedup).length ≤ 1) ∧
    get_stride_analysis_hints (parse_diagram_xml (some quiet_cells) init_analyzer).2 = [] :=
  ⟨by decide, by decide, by decide, by decide, by decide,
   hint_suppression (parse_diagram_xml (some quiet_cells) init_analyzer).2
     (by decide) (by decide) (by decide) (by decide) (by decide)⟩

/-- The dangling-edge diagram: one element "A" and one edge from "A" to the
nonexistent id "ZZZ". -/
def dangling_edge_cells : List MxCell :=
  [⟨some "A", some "A", some "ellipse", none, none, none⟩,
   ⟨some "e1", none, none, some "1", some "A", some "ZZZ"⟩]

/-- C7.  Dangling-edge tolerance: parsing `dangling_edge_cells` succeeds,
the flow list has exactly one entry whose target is "ZZZ", and the prompt
composer renders the missing target as "Unknown_ZZZ" (both in the element
name lookup and inside the composed system prompt). -/
theorem dangling_edge_scenario :
    (parse_diagram_xml (some dangling_edge_cells) init_analyzer).1 = true ∧
    (parse_diagram_xml (some dangling_edge_cells) init_analyzer).2.data_flows.map
        DataFlow.target_id = ["ZZZ"] ∧
    get_element_name (parse_diagram_xml (some dangling_edge_cells) init_analyzer).2
        "ZZZ" = "Unknown_ZZZ" ∧
    strContains
        (generate_system_prompt (parse_diagram_xml (some dangling_edge_cells) init_analyzer).2)
        "Unknown_ZZZ" = true := by
  decide

/-- C8 counterexample: the parser copies `source`/`target` verbatim, so a
document whose edge cell lists its own id as `source` yields a flow with
`source_id = id`; the claimed invariant fails on the code as stated. -/
theorem flow_self_reference_counterexample :
    ¬ ∀ (cells : List MxCell) (f : DataFlow),
        f ∈ (parse_diagram_xml (some cells) init_analyzer).2.data_flows →
        f.source_id ≠ f.id ∧ f.target_id ≠ f.id := by
  intro h
  have hf : (⟨"e", "e", "x", "", "unknown", "unknown", false⟩ : DataFlow) ∈
      (parse_diagram_xml (some [⟨some "e", none, none, some "1", some "e", some "x"⟩])
        init_analyzer).2.data_flows := by decide
  exact (h [⟨some "e", none, none, some "1", some "e", some "x"⟩] _ hf).1 rfl

/-- C8 amended.  Flow self-reference invariant, amended: the parser performs
no validation, so the invariant holds exactly for documents in which no edge
cell's `source` or `target` attribute equals that cell's own id; for every
such document, every parsed `DataFlow` has `source_id ≠ id` and
`target_id ≠ id` (self-loops, `source_id = target_id`, remain permitted). -/
theorem flow_self_reference_amended (cells : List MxCell)
    (hcells : ∀ c ∈ cells, c.edge = some "1" → ∀ cid, c.id = some cid →
      c.source.getD "" ≠ cid ∧ c.target.getD "" ≠ cid)
    (f : DataFlow)
    (hf : f ∈ (parse_diagram_xml (some cells) init_analyzer).2.data_flows) :
    f.source_id ≠ f.id ∧ f.target_id ≠ f.id := by
  rcases parse_flows_shape cells init_analyzer f hf with h | ⟨c, hc, hedge, cid, hcid, rfl⟩
  · simp [init_analyzer] at h
  · exact hcells c hc hedge cid hcid

/-- A diagram whose only edge is a self-loop on element "n1" (its own id is
"n2", distinct from both endpoints). -/
def self_loop_cells : List MxCell :=
  [⟨some "n1", some "Svc", some "ellipse", none, none, none⟩,
   ⟨some "n2", none, none, some "1", some "n1", some "n1"⟩]

/-- Witness for the amended C8 at the parse result of `self_loop_cells`. -/
theorem flow_self_reference_amended_witness :
    (∀ c ∈ self_loop_cells, c.edge = some "1" → ∀ cid, c.id = some cid →
      c.source.getD "" ≠ cid ∧ c.target.getD "" ≠ cid) ∧
    ((⟨"n2", "n1", "n1", "", "unknown", "unknown", false⟩ : DataFlow) ∈
      (parse_diagram_xml (some self_loop_cells) init_analyzer).2.data_flows) ∧
    ((⟨"n2", "n1", "n1", "", "unknown", "unknown", false⟩ : DataFlow).source_id ≠
      (⟨"n2", "n1", "n1", "", "unknown", "unknown", false⟩ : DataFlow).id ∧
     (⟨"n2", "n1", "n1", "", "unknown", "unknown", false⟩ : DataFlow).target_id ≠
      (⟨"n2", "n1", "n1", "", "unknown", "unknown", false⟩ : DataFlow).id) :=
  ⟨by decide, by decide,
   flow_self_reference_amended self_loop_cells (by decide) _ (by decide)⟩

/-- C9.  The `semi-trusted` level is unreachable: every parsed element is
`trusted` or `untrusted`, because "cloud" is not a key of `TECH_KEYWORDS`
(so it never appears in a derived technologies list) and no non-external
category name contains the substring "external". -/
theorem semi_trusted_unreachable (cells : List MxCell) (e : ThreatModelElement)
    (he : e ∈ (parse_diagram_xml (some cells) init_analyzer).2.elements) :
    e.trust_level = "trusted" ∨ e.trust_level = "untrusted" := by
  rcases parse_elements_shape cells init_analyzer e he with h | ⟨cid, v, s, rfl⟩
  · simp [init_analyzer] at h
  · show determine_trust_level (determine_element_type s v) (extract_technologies v s) =
        "trusted" ∨
      determine_trust_level (determine_element_type s v) (extract_technologies v s) =
        "untrusted"
    rw [determine_trust_level_parsed v s]
    by_cases h : determine_element_type s v = "external_entity"
    · exact Or.inr (if_pos h)
    · exact Or.inl (if_neg h)

/-- A one-node document with a data store element. -/
def c9_witness_cells : List MxCell :=
  [⟨some "7", some "Orders", some "cylinder", none, none, none⟩]

/-- Witness for C9 at the data-store element of `c9_witness_cells`. -/
theorem semi_trusted_unreachable_witness :
    (process_element "7" "Orders" "cylinder" ∈
      (parse_diagram_xml (some c9_witness_cells) init_analyzer).2.elements) ∧
    ((process_element "7" "Orders" "cylinder").trust_level = "trusted" ∨
     (process_element "7" "Orders" "cylinder").trust_level = "untrusted") :=
  ⟨by decide, semi_trusted_unreachable c9_witness_cells _ (by decide)⟩

/-- Any label whose lower-casing contains "nosql" also contains "sql", as a
keyword-table fact usable on `anyKeyword` singletons. -/
theorem anyKeyword_singleton (s p : String) :
    anyKeyword s [p] = strContains s p := by
  simp [anyKeyword]

/-- C10.  The `nosql` protocol tag is unreachable: `_detect_protocol` always
answers one of https, http, grpc, sql, message_queue or unknown, never
`nosql`, because a label containing "nosql" also contains "sql" and the sql
group is checked first. -/
theorem nosql_protocol_unreachable (label : String) :
    detect_protocol label ≠ "nosql" ∧
    detect_protocol label ∈ ["https", "http", "grpc", "sql", "message_queue", "unknown"] := by
  unfold detect_protocol
  by_cases h1 : anyKeyword (str_lower label) ["https", "tls", "ssl"] = true
  · simp [protocols_table, List.find?, h1]
  rw [Bool.not_eq_true] at h1
  by_cases h2 : anyKeyword (str_lower label) ["http"] = true
  · simp [protocols_table, List.find?, h1, h2]
  rw [Bool.not_eq_true] at h2
  by_cases h3 : anyKeyword (str_lower label) ["grpc"] = true
  · simp [protocols_table, List.find?, h1, h2, h3]
  rw [Bool.not_eq_true] at h3
  by_cases h4 : anyKeyword (str_lower label) ["sql"] = true
  · simp [protocols_table, List.find?, h1, h2, h3, h4]
  rw [Bool.not_eq_true] at h4
  have h5 : anyKeyword (str_lower label) ["nosql"] = false := by
    rw [anyKeyword_singleton]
    rw [anyKeyword_singleton] at h4
    cases hn : strContains (str_lower label) "nosql" with
    | false => rfl
    | true => rw [nosql_implies_sql hn] at h4; exact absurd h4 (by simp)
  by_cases h6 : anyKeyword (str_lower label) ["mq", "kafka", "rabbitmq", "queue"] = true
  · simp [protocols_table, List.find?, h1, h2, h3, h4, h5, h6]
  rw [Bool.not_eq_true] at h6
  simp [protocols_table, List.find?, h1, h2, h3, h4, h5, h6]
